import Mathlib

/-!
Shallow embedding of lib/sysfs.c from lm-sensors: the dynamic feature-table
builder (sensors_read_dynamic_chip), the feature-name classifier it calls,
and the sysfs chip identity resolver (sensors_read_one_sysfs_chip), together
with theorems settling the specified properties.

Functions declared in headers that are not part of src/ (the feature type
codes of data.h, sensors_feature_get_type, the bus sentinels, the error code
and the dynamic budget) are modelled from the spec and marked as such.
-/

/-- MAX_SENSORS_PER_TYPE, lib/sysfs.c line 38. -/
def MAX_SENSORS_PER_TYPE : Nat := 16

/-- Modelled from the spec: SENSORS_FEATURE_MAX_SUB_FEATURES (data.h is not in
src/), the per-index subtype slot count; large enough for every subtype code,
where the 0x10 bit marks non-computed (alarm-like) sub-readings. -/
def SENSORS_FEATURE_MAX_SUB_FEATURES : Nat := 32

/-- Modelled from the spec: feature type codes (data.h is not in src/).
Category in the high byte (Voltage 0, Fan 1, Temperature 2, misc 3), subtype
bit flags in the low byte. The layout is forced by the masks the source
applies: (type >> 8) indexes the 3-category sparse block plus a misc block,
(type & 0xFF) is the subtype slot, (type & 0x10) marks alarm-like subtypes. -/
def SENSORS_FEATURE_IN : Nat := 0x000

/-- Modelled from the spec: Voltage min sub-reading type code. -/
def SENSORS_FEATURE_IN_MIN : Nat := 0x001

/-- Modelled from the spec: Voltage max sub-reading type code. -/
def SENSORS_FEATURE_IN_MAX : Nat := 0x002

/-- Modelled from the spec: Voltage alarm sub-reading type code. -/
def SENSORS_FEATURE_IN_ALARM : Nat := 0x010

/-- Modelled from the spec: Voltage min-alarm sub-reading type code. -/
def SENSORS_FEATURE_IN_MIN_ALARM : Nat := 0x011

/-- Modelled from the spec: Voltage max-alarm sub-reading type code. -/
def SENSORS_FEATURE_IN_MAX_ALARM : Nat := 0x012

/-- Modelled from the spec: Fan primary type code. -/
def SENSORS_FEATURE_FAN : Nat := 0x100

/-- Modelled from the spec: Fan min sub-reading type code. -/
def SENSORS_FEATURE_FAN_MIN : Nat := 0x101

/-- Modelled from the spec: Fan div sub-reading type code. -/
def SENSORS_FEATURE_FAN_DIV : Nat := 0x102

/-- Modelled from the spec: Fan alarm sub-reading type code. -/
def SENSORS_FEATURE_FAN_ALARM : Nat := 0x110

/-- Modelled from the spec: Fan fault sub-reading type code. -/
def SENSORS_FEATURE_FAN_FAULT : Nat := 0x111

/-- Modelled from the spec: Temperature primary type code. -/
def SENSORS_FEATURE_TEMP : Nat := 0x200

/-- Modelled from the spec: Temperature max sub-reading type code. -/
def SENSORS_FEATURE_TEMP_MAX : Nat := 0x201

/-- Modelled from the spec: Temperature max hysteresis sub-reading type code. -/
def SENSORS_FEATURE_TEMP_MAX_HYST : Nat := 0x202

/-- Modelled from the spec: Temperature min sub-reading type code. -/
def SENSORS_FEATURE_TEMP_MIN : Nat := 0x203

/-- Modelled from the spec: Temperature critical sub-reading type code. -/
def SENSORS_FEATURE_TEMP_CRIT : Nat := 0x204

/-- Modelled from the spec: Temperature critical hysteresis type code. -/
def SENSORS_FEATURE_TEMP_CRIT_HYST : Nat := 0x205

/-- Modelled from the spec: Temperature alarm sub-reading type code. -/
def SENSORS_FEATURE_TEMP_ALARM : Nat := 0x210

/-- Modelled from the spec: Temperature max-alarm sub-reading type code. -/
def SENSORS_FEATURE_TEMP_MAX_ALARM : Nat := 0x211

/-- Modelled from the spec: Temperature min-alarm sub-reading type code. -/
def SENSORS_FEATURE_TEMP_MIN_ALARM : Nat := 0x212

/-- Modelled from the spec: Temperature crit-alarm sub-reading type code. -/
def SENSORS_FEATURE_TEMP_CRIT_ALARM : Nat := 0x213

/-- Modelled from the spec: Temperature fault sub-reading type code. -/
def SENSORS_FEATURE_TEMP_FAULT : Nat := 0x214

/-- Modelled from the spec: Vid misc feature type code (first misc feature). -/
def SENSORS_FEATURE_VID : Nat := 0x300

/-- Modelled from the spec: Vrm misc feature type code. -/
def SENSORS_FEATURE_VRM : Nat := 0x301

/-- Modelled from the spec: the rejection value of the classifier. -/
def SENSORS_FEATURE_UNKNOWN : Nat := 0xFFFF

/-- Modelled from the spec: the "no mapping" sentinel (data.h is not in src/). -/
def SENSORS_NO_MAPPING : Int := -1

/-- Modelled from the spec: access mode codes (data.h is not in src/). -/
def SENSORS_MODE_NO_RW : Nat := 0

/-- Modelled from the spec: read-only access mode code. -/
def SENSORS_MODE_R : Nat := 1

/-- Modelled from the spec: write-only access mode code. -/
def SENSORS_MODE_W : Nat := 2

/-- Modelled from the spec: read-write access mode code. -/
def SENSORS_MODE_RW : Nat := 3

/-- Modelled from the spec: ISA bus sentinel (distinct reserved value). -/
def SENSORS_CHIP_NAME_BUS_ISA : Int := -1

/-- Modelled from the spec: Dummy bus sentinel (distinct reserved value). -/
def SENSORS_CHIP_NAME_BUS_DUMMY : Int := -2

/-- Modelled from the spec: PCI bus sentinel (distinct reserved value). -/
def SENSORS_CHIP_NAME_BUS_PCI : Int := -5

/-- Modelled from the spec: the parse error code (error.h is not in src/). -/
def SENSORS_ERR_PARSE : Int := 8

/-- Modelled from the spec: the fixed dynamic-slot budget (N_PLACEHOLDER_ELEMENTS;
data.h is not in src/). The exact count is immaterial to the properties. -/
def N_PLACEHOLDER_ELEMENTS : Nat := 20

/-- Size of the sparse feature table, lib/sysfs.c lines 74-76. -/
def TABLE_SIZE : Nat :=
  MAX_SENSORS_PER_TYPE * SENSORS_FEATURE_MAX_SUB_FEATURES * 3 +
    SENSORS_FEATURE_MAX_SUB_FEATURES

/-- One sysfs attribute as the traversal collaborator yields it:
name, value, and the show/store capability bits of attr->method. -/
structure SysfsAttr where
  name : String
  value : String
  methodShow : Bool
  methodStore : Bool
deriving DecidableEq

/-- The data part of sensors_chip_feature (NULL name marks an empty slot,
modelled by Option). -/
structure FeatureData where
  name : Option String
  number : Nat
  mapping : Int
  compute_mapping : Int
  mode : Nat
deriving DecidableEq

/-- sensors_chip_feature: the data part plus the scaling exponent. -/
structure ChipFeature where
  data : FeatureData
  scaling : Int
deriving DecidableEq

/-- The all-zero sensors_chip_feature produced by calloc. -/
def zeroFeature : ChipFeature :=
  { data := { name := none, number := 0, mapping := 0, compute_mapping := 0, mode := 0 },
    scaling := 0 }

/-- Decimal digit run value (the C strtol with base 10 applied to names whose
digit run follows the category marker; sign and whitespace never occur there). -/
def strtol10 (l : List Char) : Nat :=
  (l.takeWhile Char.isDigit).foldl (fun acc c => acc * 10 + (c.toNat - '0'.toNat)) 0

/-- Modelled from the spec: the subtype table of Voltage names
(sensors_feature_get_type is not in src/): bare name is the primary value,
thresholds are computed sub-readings, alarms carry the 0x10 flag. -/
def inType : String → Nat
  | "" => SENSORS_FEATURE_IN
  | "_min" => SENSORS_FEATURE_IN_MIN
  | "_max" => SENSORS_FEATURE_IN_MAX
  | "_alarm" => SENSORS_FEATURE_IN_ALARM
  | "_min_alarm" => SENSORS_FEATURE_IN_MIN_ALARM
  | "_max_alarm" => SENSORS_FEATURE_IN_MAX_ALARM
  | _ => SENSORS_FEATURE_UNKNOWN

/-- Modelled from the spec: the subtype table of Fan names. -/
def fanType : String → Nat
  | "" => SENSORS_FEATURE_FAN
  | "_min" => SENSORS_FEATURE_FAN_MIN
  | "_div" => SENSORS_FEATURE_FAN_DIV
  | "_alarm" => SENSORS_FEATURE_FAN_ALARM
  | "_fault" => SENSORS_FEATURE_FAN_FAULT
  | _ => SENSORS_FEATURE_UNKNOWN

/-- Modelled from the spec: the subtype table of Temperature names. -/
def tempType : String → Nat
  | "" => SENSORS_FEATURE_TEMP
  | "_max" => SENSORS_FEATURE_TEMP_MAX
  | "_max_hyst" => SENSORS_FEATURE_TEMP_MAX_HYST
  | "_min" => SENSORS_FEATURE_TEMP_MIN
  | "_crit" => SENSORS_FEATURE_TEMP_CRIT
  | "_crit_hyst" => SENSORS_FEATURE_TEMP_CRIT_HYST
  | "_alarm" => SENSORS_FEATURE_TEMP_ALARM
  | "_max_alarm" => SENSORS_FEATURE_TEMP_MAX_ALARM
  | "_min_alarm" => SENSORS_FEATURE_TEMP_MIN_ALARM
  | "_crit_alarm" => SENSORS_FEATURE_TEMP_CRIT_ALARM
  | "_fault" => SENSORS_FEATURE_TEMP_FAULT
  | _ => SENSORS_FEATURE_UNKNOWN

/-- Modelled from the spec: sensors_feature_get_type (declared in data.h, not
in src/). Classifies a base name (after any "_input" strip) into a type code:
exact Vid/Vrm identifiers; otherwise prefix "temp"/"fan"/"in" followed by at
least one decimal digit and a recognised subtype suffix; anything else is
Unknown. -/
def sensors_feature_get_type (name : String) : Nat :=
  if name = "cpu0_vid" then SENSORS_FEATURE_VID
  else if name = "vrm" then SENSORS_FEATURE_VRM
  else if "temp".data.isPrefixOf name.data then
    if (name.data.drop 4).takeWhile Char.isDigit = [] then SENSORS_FEATURE_UNKNOWN
    else tempType (String.mk ((name.data.drop 4).dropWhile Char.isDigit))
  else if "fan".data.isPrefixOf name.data then
    if (name.data.drop 3).takeWhile Char.isDigit = [] then SENSORS_FEATURE_UNKNOWN
    else fanType (String.mk ((name.data.drop 3).dropWhile Char.isDigit))
  else if "in".data.isPrefixOf name.data then
    if (name.data.drop 2).takeWhile Char.isDigit = [] then SENSORS_FEATURE_UNKNOWN
    else inType (String.mk ((name.data.drop 2).dropWhile Char.isDigit))
  else SENSORS_FEATURE_UNKNOWN

/-- get_type_scaling, lib/sysfs.c lines 40-61: first switch on type & 0xFF10
(Voltage and Temperature non-alarm subtypes 3, Fan non-alarm 0), then switch
on the full type (Vid 3, Vrm 1), default 0. -/
def get_type_scaling (t : Nat) : Int :=
  if t &&& 0xFF10 = SENSORS_FEATURE_IN ∨ t &&& 0xFF10 = SENSORS_FEATURE_TEMP then 3
  else if t &&& 0xFF10 = SENSORS_FEATURE_FAN then 0
  else if t = SENSORS_FEATURE_VID then 3
  else if t = SENSORS_FEATURE_VRM then 1
  else 0

/-- The "_input" suffix strip, lib/sysfs.c lines 96-101. -/
def featureBaseName (n : List Char) : List Char :=
  if 6 < n.length ∧ n.drop (n.length - 6) = "_input".data then n.take (n.length - 6)
  else n

/-- The type code the source computes for one attribute (classification runs
on the base name, lib/sysfs.c line 103). -/
def attrType (a : SysfsAttr) : Nat :=
  sensors_feature_get_type (String.mk (featureBaseName a.name.data))

/-- The per-category index, lib/sysfs.c lines 109-125: digits after the
category marker of the raw name; Fan and Temperature decrement a nonzero
value; Vid is fixed at 0. A type outside the four blocks leaves the previous
value of the C variable i, which is strlen(name) from line 97. -/
def attrIndex (t : Nat) (n : List Char) : Nat :=
  if t &&& 0xFF00 = SENSORS_FEATURE_IN then strtol10 (n.drop 2)
  else if t &&& 0xFF00 = SENSORS_FEATURE_FAN then
    let v := strtol10 (n.drop 3)
    if v ≠ 0 then v - 1 else v
  else if t &&& 0xFF00 = SENSORS_FEATURE_TEMP then
    let v := strtol10 (n.drop 4)
    if v ≠ 0 then v - 1 else v
  else if t &&& 0xFF00 = SENSORS_FEATURE_VID then 0
  else n.length

/-- The sparse slot address, lib/sysfs.c lines 135-139. -/
def attrSlotAddr (a : SysfsAttr) : Nat :=
  (attrType a >>> 8) * MAX_SENSORS_PER_TYPE * SENSORS_FEATURE_MAX_SUB_FEATURES +
    attrIndex (attrType a) a.name.data * SENSORS_FEATURE_MAX_SUB_FEATURES +
    (attrType a &&& 0xFF)

/-- The slot one attribute is stored at, or none when the source drops it
(the "name" attribute, an Unknown classification, or an oversized index). -/
def attrSlot (a : SysfsAttr) : Option Nat :=
  if a.name = "name" then none
  else if attrType a = SENSORS_FEATURE_UNKNOWN then none
  else if MAX_SENSORS_PER_TYPE ≤ attrIndex (attrType a) a.name.data then none
  else some (attrSlotAddr a)

/-- The access mode computed from attr->method, lib/sysfs.c lines 168-173. -/
def computeMode (mShow mStore : Bool) : Nat :=
  if mShow ∧ mStore then SENSORS_MODE_RW
  else if mShow then SENSORS_MODE_R
  else if mStore then SENSORS_MODE_W
  else SENSORS_MODE_NO_RW

/-- The feature record built for one stored attribute, lib/sysfs.c lines
149-175: number is slot + 1; misc features and primary values get no mapping;
alarm-flagged subtypes map to the primary slot with no compute mapping;
other sub-readings get both mappings. -/
def attrFeature (a : SysfsAttr) : ChipFeature :=
  let t := attrType a
  let slot := attrSlotAddr a
  let m : Int × Int :=
    if t &&& 0xFF00 = SENSORS_FEATURE_VID ∨ t &&& 0x00FF = 0 then
      (SENSORS_NO_MAPPING, SENSORS_NO_MAPPING)
    else if t &&& 0x10 ≠ 0 then
      (((slot - slot % SENSORS_FEATURE_MAX_SUB_FEATURES + 1 : Nat) : Int),
        SENSORS_NO_MAPPING)
    else
      (((slot - slot % SENSORS_FEATURE_MAX_SUB_FEATURES + 1 : Nat) : Int),
        ((slot - slot % SENSORS_FEATURE_MAX_SUB_FEATURES + 1 : Nat) : Int))
  { data := { name := some (String.mk (featureBaseName a.name.data)),
              number := slot + 1,
              mapping := m.1,
              compute_mapping := m.2,
              mode := computeMode a.methodShow a.methodStore },
    scaling := get_type_scaling t }

/-- The mutable state of the attribute loop of sensors_read_dynamic_chip:
the prefix found so far, the sparse table, and the element counter fnum. -/
structure DynState where
  pfx : Option String
  table : Nat → Option ChipFeature
  fnum : Nat

/-- State before the loop: no prefix, empty table, fnum = 1 (line 66). -/
def initDynState : DynState :=
  { pfx := none, table := fun _ => none, fnum := 1 }

/-- One iteration of the attribute loop, lib/sysfs.c lines 87-179: the "name"
attribute sets the prefix (last one wins); a dropped attribute changes
nothing; an attribute whose slot is already occupied is discarded
(first-seen wins); otherwise the feature is stored and fnum incremented. -/
def dynStep (st : DynState) (a : SysfsAttr) : DynState :=
  if a.name = "name" then
    { st with pfx := some (String.mk a.value.data.dropLast) }
  else
    match attrSlot a with
    | none => st
    | some slot =>
      if (st.table slot).isSome then st
      else
        { st with
          table := fun s => if s = slot then some (attrFeature a) else st.table s,
          fnum := st.fnum + 1 }

/-- The folded loop state over a whole attribute list. -/
def dynFold (attrs : List SysfsAttr) : DynState :=
  attrs.foldl dynStep initDynState

/-- The sparse table produced for an attribute list. -/
def tableOf (attrs : List SysfsAttr) : Nat → Option ChipFeature :=
  (dynFold attrs).table

/-- The dense table: walk all slots in ascending address order and keep the
occupied ones, lib/sysfs.c lines 186-192. -/
def denseOf (attrs : List SysfsAttr) : List ChipFeature :=
  (List.range TABLE_SIZE).filterMap (tableOf attrs)

/-- sensors_read_dynamic_chip, lib/sysfs.c lines 63-197. A missing attribute
list returns the empty result {0, 0}. Otherwise the loop runs, fnum elements
are calloc'ed (zero-filled) and the dense table is copied to the front. -/
def sensors_read_dynamic_chip (attrsOpt : Option (List SysfsAttr)) :
    Option String × List ChipFeature :=
  match attrsOpt with
  | none => (none, [])
  | some attrs =>
    let st := dynFold attrs
    let dense := (List.range TABLE_SIZE).filterMap st.table
    (st.pfx, dense ++ List.replicate (st.fnum - dense.length) zeroFeature)

/-- Decimal digit run value used by the scanf models. -/
def decVal (ds : List Char) : Nat :=
  ds.foldl (fun acc c => acc * 10 + (c.toNat - '0'.toNat)) 0

/-- Hexadecimal digit test. -/
def isHexDigit (c : Char) : Bool :=
  c.isDigit ∨ ('a' ≤ c ∧ c ≤ 'f') ∨ ('A' ≤ c ∧ c ≤ 'F')

/-- Hexadecimal digit value. -/
def hexDigitVal (c : Char) : Nat :=
  if c.isDigit then c.toNat - '0'.toNat
  else if 'a' ≤ c ∧ c ≤ 'f' then c.toNat - 'a'.toNat + 10
  else if 'A' ≤ c ∧ c ≤ 'F' then c.toNat - 'A'.toNat + 10
  else 0

/-- Hexadecimal digit run value. -/
def hexVal (ds : List Char) : Nat :=
  ds.foldl (fun acc c => acc * 16 + hexDigitVal c) 0

/-- The %d conversion of sscanf: skip whitespace, optional sign, at least one
decimal digit; returns the value and the unconsumed rest. -/
def scanDec (l : List Char) : Option (Int × List Char) :=
  let l1 := l.dropWhile Char.isWhitespace
  match l1 with
  | '-' :: r =>
    let ds := r.takeWhile Char.isDigit
    if ds = [] then none else some (-(Int.ofNat (decVal ds)), r.drop ds.length)
  | '+' :: r =>
    let ds := r.takeWhile Char.isDigit
    if ds = [] then none else some (Int.ofNat (decVal ds), r.drop ds.length)
  | _ =>
    let ds := l1.takeWhile Char.isDigit
    if ds = [] then none else some (Int.ofNat (decVal ds), l1.drop ds.length)

/-- Strip an "0x"/"0X" mark when a hexadecimal digit follows it. -/
def stripHexMark (l : List Char) : List Char :=
  match l with
  | '0' :: 'x' :: r => match r with
    | c :: _ => if isHexDigit c then r else l
    | [] => l
  | '0' :: 'X' :: r => match r with
    | c :: _ => if isHexDigit c then r else l
    | [] => l
  | _ => l

/-- The %x conversion of sscanf: skip whitespace, optional 0x mark, at least
one hexadecimal digit; returns the value and the unconsumed rest. -/
def scanHex (l : List Char) : Option (Int × List Char) :=
  let l1 := l.dropWhile Char.isWhitespace
  let l2 := stripHexMark l1
  let ds := l2.takeWhile isHexDigit
  if ds = [] then none else some (Int.ofNat (hexVal ds), l2.drop ds.length)

/-- sscanf(dev->name, "%d-%x", &bus, &addr) == 2, lib/sysfs.c line 235. -/
def sscanf_d_x (s : String) : Option (Int × Int) :=
  match scanDec s.data with
  | none => none
  | some (bus, r) =>
    match r with
    | '-' :: r2 =>
      match scanHex r2 with
      | none => none
      | some (addr, _) => some (bus, addr)
    | _ => none

/-- sscanf(dev->name, "%*[a-z0-9_].%d", &addr) == 1, lib/sysfs.c line 255:
a nonempty greedy scanset of lowercase letters, digits and underscore, a
literal dot, then a decimal address. -/
def sscanf_platform (s : String) : Option Int :=
  let cs := s.data.takeWhile (fun c => c.isLower ∨ c.isDigit ∨ c = '_')
  if cs = [] then none
  else
    match s.data.drop cs.length with
    | '.' :: r =>
      match scanDec r with
      | none => none
      | some (addr, _) => some addr
    | _ => none

/-- sscanf(dev->name, "%x:%x:%x.%x", ...) == 4, lib/sysfs.c line 258. -/
def sscanf_pci (s : String) : Option (Int × Int × Int × Int) :=
  match scanHex s.data with
  | none => none
  | some (domain, r1) =>
    match r1 with
    | ':' :: r2 =>
      match scanHex r2 with
      | none => none
      | some (bus, r3) =>
        match r3 with
        | ':' :: r4 =>
          match scanHex r4 with
          | none => none
          | some (slot, r5) =>
            match r5 with
            | '.' :: r6 =>
              match scanHex r6 with
              | none => none
              | some (fn, _) => some (domain, bus, slot, fn)
            | _ => none
        | _ => none
    | _ => none

/-- Result of opening and reading one named attribute through libsysfs:
the attribute may be absent (sysfs_open_attribute returns NULL), reading an
opened attribute may fail (sysfs_read_attribute nonzero), or a value —
possibly a NULL pointer — is obtained. -/
inductive AttrFetch where
  | absent
  | readError
  | ok (value : Option String)
deriving DecidableEq

/-- The external collaborators of the chip scan: the bus-adapter "name"
attribute at /class/i2c-adapter/i2c-N/device/name, keyed by bus number N. -/
structure SysfsEnv where
  adapterName : Int → AttrFetch

/-- One chip device handle: directory name, full path, and its attribute
list (none when sysfs yields no attribute list at all). -/
structure SysfsDevice where
  name : String
  path : String
  attrs : Option (List SysfsAttr)

/-- sysfs_get_device_attr: the device attribute of a given name. -/
def sysfs_get_device_attr (dev : SysfsDevice) (n : String) : Option SysfsAttr :=
  match dev.attrs with
  | none => none
  | some l => l.find? (fun a => a.name = n)

/-- One entry of the runtime chip feature list (sensors_chip_features):
a NULL prefix marks the sentinel/placeholder region. -/
structure ChipEntry where
  pfx : Option String
  feature : List ChipFeature
deriving DecidableEq

/-- One sensors_proc_chips_entry as handed to the chip registry. -/
structure ProcChipsEntry where
  pfx : String
  bus : Int
  addr : Int
  busname : String
deriving DecidableEq

/-- The mutable globals touched by sensors_read_one_sysfs_chip:
the chip feature list, the total_dynamic counter, and the chip registry. -/
structure ScanState where
  chip_list : List ChipEntry
  total_dynamic : Nat
  proc_chips : List ProcChipsEntry
deriving DecidableEq

/-- Case-insensitive string equality (strcasecmp == 0). -/
def strcaseEq (a b : String) : Bool :=
  a.data.map Char.toLower = b.data.map Char.toLower

/-- The populated run of the sentinel-terminated chip feature list: the scan
loops of lib/sysfs.c lines 266 and 276 stop at the first NULL prefix. -/
def effList (l : List ChipEntry) : List ChipEntry :=
  l.takeWhile (fun e => e.pfx.isSome)

/-- The lookup loop of lib/sysfs.c lines 266-268: first case-insensitive
prefix match before the sentinel. -/
def chipLookup (l : List ChipEntry) (p : String) : Option ChipEntry :=
  (effList l).find? (fun e =>
    match e.pfx with
    | some q => strcaseEq q p
    | none => false)

/-- The bus identity resolution of lib/sysfs.c lines 235-263: the three naming
patterns tried in order, with the legacy-ISA disambiguation of pattern one.
A none result is the -SENSORS_ERR_PARSE path (unreadable adapter name after a
successful open, or no pattern matching). An absent adapter-name attribute
leaves the parsed bus number unchanged. -/
def parse_bus_addr (env : SysfsEnv) (devname : String) : Option (Int × Int) :=
  match sscanf_d_x devname with
  | some (bus, addr) =>
    if bus = 9191 then some (SENSORS_CHIP_NAME_BUS_ISA, addr)
    else
      match env.adapterName bus with
      | .absent => some (bus, addr)
      | .readError => none
      | .ok v =>
        match v with
        | some s =>
          if "ISA ".data.isPrefixOf s.data then some (SENSORS_CHIP_NAME_BUS_ISA, addr)
          else some (bus, addr)
        | none => some (bus, addr)
  | none =>
    match sscanf_platform devname with
    | some addr => some (SENSORS_CHIP_NAME_BUS_ISA, addr)
    | none =>
      match sscanf_pci devname with
      | some (domain, bus, slot, fn) =>
        some (SENSORS_CHIP_NAME_BUS_PCI,
          domain * 65536 + bus * 256 + slot * 8 + fn)
      | none => none

/-- The bus kind a resolved bus number denotes. -/
inductive BusKind where
  | isa
  | i2c
  | pci
  | dummy
deriving DecidableEq

/-- Classify a bus number through the reserved sentinels. -/
def busKindOf (bus : Int) : BusKind :=
  if bus = SENSORS_CHIP_NAME_BUS_ISA then .isa
  else if bus = SENSORS_CHIP_NAME_BUS_PCI then .pci
  else if bus = SENSORS_CHIP_NAME_BUS_DUMMY then .dummy
  else .i2c

/-- sensors_read_one_sysfs_chip, lib/sysfs.c lines 208-286: skip devices
without a "name" attribute and subclients; resolve the bus identity (hard
parse error aborts); when the prefix is unknown and the dynamic budget not
exhausted, synthesize a feature set and append it at the end of the list;
always register the resolved entry. -/
def sensors_read_one_sysfs_chip (env : SysfsEnv) (dev : SysfsDevice)
    (st : ScanState) : Int × ScanState :=
  match sysfs_get_device_attr dev "name" with
  | none => (0, st)
  | some attr =>
    if 11 ≤ attr.value.data.length ∧ " subclient\n".data.isSuffixOf attr.value.data then
      (0, st)
    else
      let p := String.mk attr.value.data.dropLast
      match parse_bus_addr env dev.name with
      | none => (-SENSORS_ERR_PARSE, st)
      | some (bus, addr) =>
        let entry : ProcChipsEntry :=
          { pfx := p, bus := bus, addr := addr, busname := dev.path }
        let st1 :=
          if (chipLookup st.chip_list p).isNone ∧
              st.total_dynamic < N_PLACEHOLDER_ELEMENTS then
            let n := sensors_read_dynamic_chip dev.attrs
            { st with
              chip_list := effList st.chip_list ++ [{ pfx := n.1, feature := n.2 }],
              total_dynamic := st.total_dynamic + 1 }
          else st
        (0, { st1 with proc_chips := st1.proc_chips ++ [entry] })

/-- The device loop of the top-level scan (lib/sysfs.c lines 339-347): stop
at the first nonzero return, keeping the state reached so far. -/
def sensors_read_sysfs_chips (env : SysfsEnv) (devs : List SysfsDevice)
    (st : ScanState) : Int × ScanState :=
  match devs with
  | [] => (0, st)
  | d :: rest =>
    let r := sensors_read_one_sysfs_chip env d st
    if r.1 ≠ 0 then r
    else sensors_read_sysfs_chips env rest r.2

/-- Every type code the classifier can return besides Unknown. -/
def validTypes : List Nat :=
  [0x000, 0x001, 0x002, 0x010, 0x011, 0x012,
   0x100, 0x101, 0x102, 0x110, 0x111,
   0x200, 0x201, 0x202, 0x203, 0x204, 0x205,
   0x210, 0x211, 0x212, 0x213, 0x214,
   0x300, 0x301]

/-- Two attributes do not contend for one sparse slot. -/
def slotDisjoint (a b : SysfsAttr) : Prop :=
  attrSlot a = none ∨ attrSlot a ≠ attrSlot b

/-- No two attributes of the list map to the same sparse slot. -/
def NoCollide (attrs : List SysfsAttr) : Prop :=
  attrs.Pairwise slotDisjoint

/-- The (category, index, subtype) triple encoded in a feature's slot address
(number - 1): category block, index within the block, subtype within the
index. -/
def featureTriple (f : ChipFeature) : Nat × Nat × Nat :=
  ((f.data.number - 1) / (MAX_SENSORS_PER_TYPE * SENSORS_FEATURE_MAX_SUB_FEATURES),
   (f.data.number - 1) % (MAX_SENSORS_PER_TYPE * SENSORS_FEATURE_MAX_SUB_FEATURES) /
     SENSORS_FEATURE_MAX_SUB_FEATURES,
   (f.data.number - 1) % SENSORS_FEATURE_MAX_SUB_FEATURES)

/-- The scaling the amended claim C2 predicts from the category and the
non-computed (alarm) flag alone: Voltage and Temperature subtypes without
the 0x10 flag scale by 3, every alarm-flagged subtype by 0, Fan by 0,
Vid by 3, Vrm by 1. -/
def scalingOfCategory (t : Nat) : Int :=
  if t = SENSORS_FEATURE_VID then 3
  else if t = SENSORS_FEATURE_VRM then 1
  else if t &&& 0x10 ≠ 0 then 0
  else if t &&& 0xFF00 = SENSORS_FEATURE_IN ∨ t &&& 0xFF00 = SENSORS_FEATURE_TEMP then 3
  else 0

/-! ## Structure of the classifier output -/

theorem tempType_mem (s : String) :
    tempType s = SENSORS_FEATURE_UNKNOWN ∨ tempType s ∈ validTypes := by
  unfold tempType
  split <;> decide

theorem fanType_mem (s : String) :
    fanType s = SENSORS_FEATURE_UNKNOWN ∨ fanType s ∈ validTypes := by
  unfold fanType
  split <;> decide

theorem inType_mem (s : String) :
    inType s = SENSORS_FEATURE_UNKNOWN ∨ inType s ∈ validTypes := by
  unfold inType
  split <;> decide

theorem sensors_feature_get_type_mem (name : String) :
    sensors_feature_get_type name = SENSORS_FEATURE_UNKNOWN ∨
      sensors_feature_get_type name ∈ validTypes := by
  unfold sensors_feature_get_type
  split_ifs <;>
    first
      | decide
      | exact tempType_mem _
      | exact fanType_mem _
      | exact inType_mem _

/-! ## Slot lemmas -/

theorem attrSlot_addr {a : SysfsAttr} {s : Nat} (h : attrSlot a = some s) :
    s = attrSlotAddr a := by
  unfold attrSlot at h
  split_ifs at h
  simp_all

theorem attrSlot_guards {a : SysfsAttr} {s : Nat} (h : attrSlot a = some s) :
    a.name ≠ "name" ∧ attrType a ≠ SENSORS_FEATURE_UNKNOWN ∧
      attrIndex (attrType a) a.name.data < MAX_SENSORS_PER_TYPE := by
  unfold attrSlot at h
  split_ifs at h with h1 h2 h3
  exact ⟨h1, h2, by omega⟩

theorem attrIndex_vid {t : Nat} (n : List Char) (h : t &&& 0xFF00 = 0x300) :
    attrIndex t n = 0 := by
  unfold attrIndex
  rw [h]
  simp [SENSORS_FEATURE_IN, SENSORS_FEATURE_FAN, SENSORS_FEATURE_TEMP, SENSORS_FEATURE_VID]

theorem attrSlot_lt {a : SysfsAttr} {s : Nat} (h : attrSlot a = some s) :
    s < TABLE_SIZE := by
  obtain ⟨hname, hunk, hidx⟩ := attrSlot_guards h
  have hmem : attrType a ∈ validTypes := by
    rcases sensors_feature_get_type_mem (String.mk (featureBaseName a.name.data)) with hu | hm
    · exact absurd hu hunk
    · exact hm
  have hshift : attrType a >>> 8 ≤ 2 ∨
      (attrType a >>> 8 = 3 ∧ attrType a &&& 0xFF00 = 0x300) := by
    have : ∀ t ∈ validTypes, t >>> 8 ≤ 2 ∨ (t >>> 8 = 3 ∧ t &&& 0xFF00 = 0x300) := by decide
    exact this _ hmem
  have hlow : attrType a &&& 0xFF < 32 := by
    have : ∀ t ∈ validTypes, t &&& 0xFF < 32 := by decide
    exact this _ hmem
  rw [attrSlot_addr h]
  unfold attrSlotAddr TABLE_SIZE MAX_SENSORS_PER_TYPE SENSORS_FEATURE_MAX_SUB_FEATURES
  unfold MAX_SENSORS_PER_TYPE at hidx
  rcases hshift with hle | ⟨h3, hvid⟩
  · omega
  · rw [attrIndex_vid _ hvid, h3]
    omega

theorem attrFeature_number (a : SysfsAttr) :
    (attrFeature a).data.number = attrSlotAddr a + 1 := rfl

/-! ## Step and fold characterization -/

theorem dynStep_table (st : DynState) (a : SysfsAttr) (s : Nat) :
    (dynStep st a).table s =
      match attrSlot a with
      | none => st.table s
      | some slot =>
        if s = slot ∧ st.table slot = none then some (attrFeature a)
        else st.table s := by
  unfold dynStep
  by_cases hn : a.name = "name"
  · have hs : attrSlot a = none := by unfold attrSlot; simp [hn]
    simp [hn, hs]
  · simp only [hn, if_false]
    cases h : attrSlot a with
    | none => simp
    | some slot =>
      by_cases ho : (st.table slot).isSome
      · have ht : st.table slot ≠ none := by
          intro hc
          rw [hc] at ho
          simp at ho
        simp [ho, ht]
      · have ht : st.table slot = none := by
          cases ht' : st.table slot with
          | none => rfl
          | some g => rw [ht'] at ho; simp at ho
        by_cases hse : s = slot
        · subst hse
          simp [ho, ht]
        · simp [ho, ht, hse]

theorem foldl_table (attrs : List SysfsAttr) :
    ∀ (st : DynState) (s : Nat),
      ((attrs.foldl dynStep st).table s) =
        match st.table s with
        | some f => some f
        | none =>
          ((attrs.filter fun a => attrSlot a == some s).head?).map attrFeature := by
  induction attrs with
  | nil =>
    intro st s
    cases h : st.table s <;> simp [h]
  | cons a l ih =>
    intro st s
    rw [List.foldl_cons, ih, dynStep_table]
    cases h : attrSlot a with
    | none =>
      have hpred : (attrSlot a == some s) = false := by simp [h]
      simp only [List.filter_cons, hpred]
      rfl
    | some slot =>
      by_cases hse : s = slot
      · subst hse
        have hpred : (attrSlot a == some s) = true := by simp [h]
        cases ht : st.table s with
        | some g => simp [ht, List.filter_cons, hpred]
        | none => simp [ht, List.filter_cons, hpred]
      · have hpred : (attrSlot a == some s) = false := by simp [h, Ne.symm hse]
        have hcond : ¬(s = slot ∧ st.table slot = none) := by
          intro hc
          exact hse hc.1
        simp only [List.filter_cons, hpred, if_neg hcond]
        rfl

theorem tableOf_char (attrs : List SysfsAttr) (s : Nat) :
    tableOf attrs s =
      ((attrs.filter fun a => attrSlot a == some s).head?).map attrFeature := by
  unfold tableOf dynFold
  rw [foldl_table]
  rfl

theorem tableOf_some {attrs : List SysfsAttr} {s : Nat} {f : ChipFeature}
    (h : tableOf attrs s = some f) :
    ∃ a, attrSlot a = some s ∧ f = attrFeature a := by
  rw [tableOf_char] at h
  cases hl : attrs.filter (fun a => attrSlot a == some s) with
  | nil => rw [hl] at h; simp at h
  | cons x t =>
    rw [hl] at h
    simp only [List.head?_cons, Option.map_some'] at h
    have hx : x ∈ attrs.filter (fun a => attrSlot a == some s) := by
      rw [hl]; exact List.mem_cons_self x t
    have hpred := List.of_mem_filter hx
    simp only [beq_iff_eq] at hpred
    injection h with h2
    exact ⟨x, hpred, h2.symm⟩

theorem tableOf_number {attrs : List SysfsAttr} {s : Nat} {f : ChipFeature}
    (h : tableOf attrs s = some f) : f.data.number = s + 1 := by
  obtain ⟨a, ha, rfl⟩ := tableOf_some h
  rw [attrFeature_number]
  exact congrArg (· + 1) (attrSlot_addr ha).symm

theorem mem_denseOf {attrs : List SysfsAttr} {f : ChipFeature} :
    f ∈ denseOf attrs ↔ ∃ s, s < TABLE_SIZE ∧ tableOf attrs s = some f := by
  unfold denseOf
  rw [List.mem_filterMap]
  constructor
  · rintro ⟨s, hs, h⟩
    exact ⟨s, List.mem_range.mp hs, h⟩
  · rintro ⟨s, hs, h⟩
    exact ⟨s, List.mem_range.mpr hs, h⟩

theorem pairwise_filterMap_aux {α β : Type} {f : α → Option β} {R : β → β → Prop} :
    ∀ {l : List α},
      l.Pairwise (fun a b => ∀ x, f a = some x → ∀ y, f b = some y → R x y) →
        (l.filterMap f).Pairwise R := by
  intro l
  induction l with
  | nil => intro _; simp
  | cons a t ih =>
    intro h
    rcases List.pairwise_cons.mp h with ⟨ha, ht⟩
    rw [List.filterMap_cons]
    cases hf : f a with
    | none => exact ih ht
    | some b =>
      refine List.Pairwise.cons ?_ (ih ht)
      intro y hy
      rcases List.mem_filterMap.mp hy with ⟨c, hc, hfc⟩
      exact ha c hc b hf y hfc

theorem denseOf_pairwise (attrs : List SysfsAttr) :
    (denseOf attrs).Pairwise (fun f g => f.data.number < g.data.number) := by
  unfold denseOf
  apply pairwise_filterMap_aux
  refine (List.pairwise_lt_range TABLE_SIZE).imp ?_
  intro a b hab
  intro x hx y hy
  rw [tableOf_number hx, tableOf_number hy]
  omega

/-! ## The fnum counter invariant -/

theorem filterMap_none_eq_nil {α β : Type} :
    ∀ (l : List α), (l.filterMap fun _ => (none : Option β)) = [] := by
  intro l
  induction l with
  | nil => rfl
  | cons a t ih => rw [List.filterMap_cons]; exact ih

theorem filterMap_update_len {T : Nat → Option ChipFeature} {slot : Nat}
    {f : ChipFeature} :
    ∀ (l : List Nat), l.Nodup → slot ∈ l → T slot = none →
      (l.filterMap fun s => if s = slot then some f else T s).length
        = (l.filterMap T).length + 1 := by
  intro l
  induction l with
  | nil => intro _ h _; simp at h
  | cons a t ih =>
    intro hnd hmem hnone
    rcases List.nodup_cons.mp hnd with ⟨hna, hndt⟩
    rw [List.filterMap_cons, List.filterMap_cons]
    rcases List.mem_cons.mp hmem with heq | hmem2
    · subst heq
      have h1 : (if slot = slot then some f else T slot) = some f := if_pos rfl
      rw [h1, hnone]
      have hrest : (t.filterMap fun s => if s = slot then some f else T s)
          = t.filterMap T := by
        apply List.filterMap_congr
        intro x hx
        have hne : x ≠ slot := fun hc => hna (hc ▸ hx)
        simp [hne]
      rw [hrest]
      simp
    · have hne : a ≠ slot := fun hc => hna (hc ▸ hmem2)
      have h1 : (if a = slot then some f else T a) = T a := if_neg hne
      rw [h1]
      cases hTa : T a with
      | none => simpa using ih hndt hmem2 hnone
      | some g => simpa using ih hndt hmem2 hnone

theorem goodDyn_step {st : DynState} (a : SysfsAttr)
    (h : st.fnum = ((List.range TABLE_SIZE).filterMap st.table).length + 1) :
    (dynStep st a).fnum
      = ((List.range TABLE_SIZE).filterMap (dynStep st a).table).length + 1 := by
  unfold dynStep
  by_cases hn : a.name = "name"
  · simpa [hn] using h
  · simp only [hn, if_false]
    cases hs : attrSlot a with
    | none => simpa using h
    | some slot =>
      by_cases ho : (st.table slot).isSome
      · simpa [ho] using h
      · have hnone : st.table slot = none := by
          cases ht' : st.table slot with
          | none => rfl
          | some g => rw [ht'] at ho; simp at ho
        have hlt : slot < TABLE_SIZE := attrSlot_lt hs
        simp only [ho, Bool.false_eq_true, if_false, ite_false]
        rw [filterMap_update_len (List.range TABLE_SIZE) (List.nodup_range _)
          (List.mem_range.mpr hlt) hnone]
        simpa using h

theorem goodDyn_foldl (attrs : List SysfsAttr) :
    ∀ (st : DynState),
      st.fnum = ((List.range TABLE_SIZE).filterMap st.table).length + 1 →
        (attrs.foldl dynStep st).fnum
          = ((List.range TABLE_SIZE).filterMap (attrs.foldl dynStep st).table).length
            + 1 := by
  induction attrs with
  | nil => intro st h; exact h
  | cons a t ih =>
    intro st h
    rw [List.foldl_cons]
    exact ih _ (goodDyn_step a h)

theorem fnum_eq (attrs : List SysfsAttr) :
    (dynFold attrs).fnum = (denseOf attrs).length + 1 := by
  unfold dynFold denseOf tableOf
  apply goodDyn_foldl
  simp [initDynState, filterMap_none_eq_nil]

theorem read_dynamic_eq (attrs : List SysfsAttr) :
    sensors_read_dynamic_chip (some attrs)
      = ((dynFold attrs).pfx, denseOf attrs ++ [zeroFeature]) := by
  unfold sensors_read_dynamic_chip
  dsimp only
  have hd : (List.range TABLE_SIZE).filterMap (dynFold attrs).table = denseOf attrs := rfl
  rw [hd, fnum_eq]
  simp

/-! ## Permutation invariance -/

theorem slotDisjoint_symm : ∀ {a b : SysfsAttr}, slotDisjoint a b → slotDisjoint b a := by
  intro a b h
  unfold slotDisjoint at h ⊢
  rcases h with hn | hne
  · cases hb : attrSlot b with
    | none => exact Or.inl rfl
    | some sb => right; rw [hn]; simp
  · cases hb : attrSlot b with
    | none => exact Or.inl rfl
    | some sb =>
      right
      rw [hb] at hne
      exact fun hc => hne hc.symm

theorem perm_eq_of_len_le_one {α : Type} {l l' : List α}
    (h : l.Perm l') (hl : l.length ≤ 1) : l = l' := by
  cases l with
  | nil =>
    have := h.length_eq
    cases l' with
    | nil => rfl
    | cons b t => simp at this
  | cons a t =>
    cases t with
    | cons c t2 => simp at hl
    | nil =>
      have hlen := h.length_eq
      cases l' with
      | nil => simp at hlen
      | cons b t' =>
        cases t' with
        | cons c t2 => simp at hlen
        | nil =>
          have : a ∈ [b] := h.mem_iff.mp (List.mem_singleton_self a)
          rw [List.mem_singleton.mp this]

theorem noCollide_filter_len {attrs : List SysfsAttr} (h : NoCollide attrs) (s : Nat) :
    (attrs.filter fun a => attrSlot a == some s).length ≤ 1 := by
  have hp : (attrs.filter fun a => attrSlot a == some s).Pairwise slotDisjoint :=
    List.Pairwise.filter _ h
  cases hl : attrs.filter (fun a => attrSlot a == some s) with
  | nil => simp
  | cons x t =>
    cases t with
    | nil => simp
    | cons y t2 =>
      exfalso
      rw [hl] at hp
      rcases List.pairwise_cons.mp hp with ⟨hx, _⟩
      have hxy := hx y (List.mem_cons_self y t2)
      have hxm : x ∈ attrs.filter (fun a => attrSlot a == some s) := by
        rw [hl]; exact List.mem_cons_self _ _
      have hym : y ∈ attrs.filter (fun a => attrSlot a == some s) := by
        rw [hl]; exact List.mem_cons_of_mem _ (List.mem_cons_self _ _)
      have hxs := List.of_mem_filter hxm
      have hys := List.of_mem_filter hym
      simp only [beq_iff_eq] at hxs hys
      rcases hxy with hnone | hne
      · rw [hxs] at hnone; simp at hnone
      · exact hne (hxs.trans hys.symm)

theorem tableOf_perm {attrs attrs' : List SysfsAttr}
    (hp : attrs.Perm attrs') (h : NoCollide attrs) (s : Nat) :
    tableOf attrs s = tableOf attrs' s := by
  rw [tableOf_char, tableOf_char]
  have heq : attrs.filter (fun a => attrSlot a == some s)
      = attrs'.filter (fun a => attrSlot a == some s) :=
    perm_eq_of_len_le_one (hp.filter _) (noCollide_filter_len h s)
  rw [heq]

theorem denseOf_perm {attrs attrs' : List SysfsAttr}
    (hp : attrs.Perm attrs') (h : NoCollide attrs) :
    denseOf attrs = denseOf attrs' := by
  unfold denseOf
  apply List.filterMap_congr
  intro s _
  exact tableOf_perm hp h s

/-! ## Feature field lemmas -/

theorem attrFeature_name (a : SysfsAttr) :
    (attrFeature a).data.name = some (String.mk (featureBaseName a.name.data)) := by
  unfold attrFeature
  dsimp only

theorem attrFeature_mapping_cases (a : SysfsAttr) :
    ((attrFeature a).data.mapping = SENSORS_NO_MAPPING ∧
      (attrFeature a).data.compute_mapping = SENSORS_NO_MAPPING) ∨
    ((attrFeature a).data.mapping =
        ((attrSlotAddr a - attrSlotAddr a % SENSORS_FEATURE_MAX_SUB_FEATURES + 1 : Nat)
          : Int) ∧
      (attrFeature a).data.compute_mapping = SENSORS_NO_MAPPING) ∨
    ((attrFeature a).data.mapping =
        ((attrSlotAddr a - attrSlotAddr a % SENSORS_FEATURE_MAX_SUB_FEATURES + 1 : Nat)
          : Int) ∧
      (attrFeature a).data.compute_mapping = (attrFeature a).data.mapping) := by
  unfold attrFeature
  dsimp only
  split_ifs with h1 h2
  · exact Or.inl ⟨rfl, rfl⟩
  · exact Or.inr (Or.inl ⟨rfl, rfl⟩)
  · exact Or.inr (Or.inr ⟨rfl, rfl⟩)

/-! ## Claim theorems: identity resolver -/

/-- C9: a chip device with no "name" attribute at all makes
sensors_read_one_sysfs_chip return 0 with the scan state untouched: no
feature-set synthesis, no chip-registry entry, no error. -/
theorem c9_missing_name_attr_skipped (env : SysfsEnv) (dev : SysfsDevice)
    (st : ScanState) (h : sysfs_get_device_attr dev "name" = none) :
    sensors_read_one_sysfs_chip env dev st = (0, st) := by
  unfold sensors_read_one_sysfs_chip
  rw [h]

/-- Witness for C9 at a concrete device with an empty attribute list. -/
theorem c9_missing_name_attr_skipped_witness :
    sysfs_get_device_attr ⟨"4-0048", "/0", some []⟩ "name" = none ∧
    sensors_read_one_sysfs_chip ⟨fun _ => AttrFetch.absent⟩ ⟨"4-0048", "/0", some []⟩
        ⟨[], 0, []⟩ = (0, ⟨[], 0, []⟩) :=
  ⟨by decide,
   c9_missing_name_attr_skipped ⟨fun _ => AttrFetch.absent⟩ ⟨"4-0048", "/0", some []⟩
     ⟨[], 0, []⟩ (by decide)⟩

/-- C3: when the device name parses as "<decimal-bus>-<hex-addr>" with bus
other than 9191 and reading the opened bus-adapter "name" attribute fails,
sensors_read_one_sysfs_chip returns the hard parse error -SENSORS_ERR_PARSE
with the state unchanged, and the device loop stops there, so the scan pass
is aborted. -/
theorem c3_unreadable_adapter_name_hard_error
    (env : SysfsEnv) (dev : SysfsDevice) (st : ScanState) (attr : SysfsAttr)
    (bus addr : Int) (rest : List SysfsDevice)
    (h1 : sysfs_get_device_attr dev "name" = some attr)
    (h2 : ¬(11 ≤ attr.value.data.length ∧
      " subclient\n".data.isSuffixOf attr.value.data = true))
    (h3 : sscanf_d_x dev.name = some (bus, addr))
    (h4 : bus ≠ 9191)
    (h5 : env.adapterName bus = AttrFetch.readError) :
    sensors_read_one_sysfs_chip env dev st = (-SENSORS_ERR_PARSE, st) ∧
    sensors_read_sysfs_chips env (dev :: rest) st = (-SENSORS_ERR_PARSE, st) := by
  have hpb : parse_bus_addr env dev.name = none := by
    unfold parse_bus_addr
    rw [h3]
    simp only [if_neg h4, h5]
  have hone : sensors_read_one_sysfs_chip env dev st = (-SENSORS_ERR_PARSE, st) := by
    unfold sensors_read_one_sysfs_chip
    rw [h1]
    dsimp only
    rw [if_neg h2, hpb]
  refine ⟨hone, ?_⟩
  unfold sensors_read_sysfs_chips
  rw [hone]
  norm_num [SENSORS_ERR_PARSE]

/-- Witness for C3 at device "4-0048" whose adapter attribute read fails. -/
theorem c3_unreadable_adapter_name_hard_error_witness :
    sscanf_d_x "4-0048" = some (4, 72) ∧
    sensors_read_one_sysfs_chip ⟨fun _ => AttrFetch.readError⟩
        ⟨"4-0048", "/0", some [⟨"name", "lm75\n", true, false⟩]⟩ ⟨[], 0, []⟩
      = (-SENSORS_ERR_PARSE, ⟨[], 0, []⟩) :=
  ⟨by decide,
   (c3_unreadable_adapter_name_hard_error ⟨fun _ => AttrFetch.readError⟩
     ⟨"4-0048", "/0", some [⟨"name", "lm75\n", true, false⟩]⟩ ⟨[], 0, []⟩
     ⟨"name", "lm75\n", true, false⟩ 4 72 []
     (by decide) (by decide) (by decide) (by decide) (by decide)).1⟩

/-- C6: a device name matching "<decimal-bus>-<hex-addr>" resolves to the ISA
sentinel when bus = 9191, independently of any adapter-name lookup; otherwise
an adapter value starting with "ISA " reclassifies to ISA; any other value
leaves the parsed nonnegative bus number, an I2C classification. -/
theorem c6_bus_kind_classification (s : String) (bus addr : Int)
    (h : sscanf_d_x s = some (bus, addr)) :
    (bus = 9191 → ∀ env : SysfsEnv,
        parse_bus_addr env s = some (SENSORS_CHIP_NAME_BUS_ISA, addr)) ∧
    (∀ (env : SysfsEnv) (v : String), bus ≠ 9191 →
        env.adapterName bus = AttrFetch.ok (some v) →
        "ISA ".data.isPrefixOf v.data = true →
        parse_bus_addr env s = some (SENSORS_CHIP_NAME_BUS_ISA, addr)) ∧
    (∀ (env : SysfsEnv) (v : String), bus ≠ 9191 →
        env.adapterName bus = AttrFetch.ok (some v) →
        ¬("ISA ".data.isPrefixOf v.data = true) →
        parse_bus_addr env s = some (bus, addr) ∧
          (0 ≤ bus → busKindOf bus = BusKind.i2c)) := by
  refine ⟨?_, ?_, ?_⟩
  · intro h9 env
    unfold parse_bus_addr
    rw [h]
    simp only [if_pos h9]
  · intro env v h9 hv hisa
    unfold parse_bus_addr
    rw [h]
    simp only [if_neg h9, hv]
    dsimp only
    rw [if_pos hisa]
  · intro env v h9 hv hisa
    constructor
    · unfold parse_bus_addr
      rw [h]
      simp only [if_neg h9, hv]
      dsimp only
      rw [if_neg hisa]
    · intro h0
      simp only [busKindOf, SENSORS_CHIP_NAME_BUS_ISA, SENSORS_CHIP_NAME_BUS_PCI,
        SENSORS_CHIP_NAME_BUS_DUMMY]
      split_ifs with hA hB hC
      · omega
      · omega
      · omega
      · rfl

/-- Witness for C6: "9191-0048" resolves to ISA for every environment, and
"4-0048" with an "ISA adapter" reading reclassifies to ISA. -/
theorem c6_bus_kind_classification_witness :
    sscanf_d_x "9191-0048" = some (9191, 72) ∧
    parse_bus_addr ⟨fun _ => AttrFetch.readError⟩ "9191-0048"
      = some (SENSORS_CHIP_NAME_BUS_ISA, 72) ∧
    sscanf_d_x "4-0048" = some (4, 72) ∧
    parse_bus_addr ⟨fun _ => AttrFetch.ok (some "ISA adapter\n")⟩ "4-0048"
      = some (SENSORS_CHIP_NAME_BUS_ISA, 72) :=
  ⟨by decide,
   (c6_bus_kind_classification "9191-0048" 9191 72 (by decide)).1 rfl
     ⟨fun _ => AttrFetch.readError⟩,
   by decide,
   (c6_bus_kind_classification "4-0048" 4 72 (by decide)).2.1
     ⟨fun _ => AttrFetch.ok (some "ISA adapter\n")⟩ "ISA adapter\n"
     (by decide) (by decide) (by decide)⟩

/-- C7: once total_dynamic has reached the budget, a successfully resolved
chip changes neither the chip feature list nor the counter — no feature set
is synthesized and nothing is written to the reserved region — while the
resolved identity is still appended to the chip registry. -/
theorem c7_budget_exhausted_no_synthesis
    (env : SysfsEnv) (dev : SysfsDevice) (st : ScanState) (attr : SysfsAttr)
    (bus addr : Int)
    (h1 : sysfs_get_device_attr dev "name" = some attr)
    (h2 : ¬(11 ≤ attr.value.data.length ∧
      " subclient\n".data.isSuffixOf attr.value.data = true))
    (h3 : parse_bus_addr env dev.name = some (bus, addr))
    (h4 : N_PLACEHOLDER_ELEMENTS ≤ st.total_dynamic) :
    sensors_read_one_sysfs_chip env dev st =
      (0, { st with proc_chips := st.proc_chips ++
        [{ pfx := String.mk attr.value.data.dropLast, bus := bus, addr := addr,
           busname := dev.path }] }) := by
  unfold sensors_read_one_sysfs_chip
  rw [h1]
  dsimp only
  rw [if_neg h2, h3]
  dsimp only
  have hcond : ¬((chipLookup st.chip_list
      (String.mk attr.value.data.dropLast)).isNone = true ∧
      st.total_dynamic < N_PLACEHOLDER_ELEMENTS) := by
    rintro ⟨_, hlt⟩
    omega
  rw [if_neg hcond]

/-- Witness for C7 at a concrete device with the budget already consumed. -/
theorem c7_budget_exhausted_no_synthesis_witness :
    N_PLACEHOLDER_ELEMENTS ≤ 20 ∧
    sensors_read_one_sysfs_chip ⟨fun _ => AttrFetch.absent⟩
        ⟨"9191-0048", "/0", some [⟨"name", "w83627hf\n", true, false⟩]⟩
        ⟨[], 20, []⟩
      = (0, ⟨[], 20, [⟨"w83627hf", -1, 72, "/0"⟩]⟩) := by
  refine ⟨by decide, ?_⟩
  rw [c7_budget_exhausted_no_synthesis ⟨fun _ => AttrFetch.absent⟩
    ⟨"9191-0048", "/0", some [⟨"name", "w83627hf\n", true, false⟩]⟩
    ⟨[], 20, []⟩ ⟨"name", "w83627hf\n", true, false⟩ (-1) 72
    (by decide) (by decide) (by decide) (by decide)]
  decide

/-! ## Claim theorems: dynamic feature table -/

/-- C8: an attribute whose decoded per-category index reaches
MAX_SENSORS_PER_TYPE leaves the loop state untouched, so it never appears in
the result and removing it from any position of the attribute list does not
change the output of sensors_read_dynamic_chip. -/
theorem c8_oversized_index_dropped (a : SysfsAttr)
    (h1 : a.name ≠ "name")
    (h2 : attrType a ≠ SENSORS_FEATURE_UNKNOWN)
    (h3 : MAX_SENSORS_PER_TYPE ≤ attrIndex (attrType a) a.name.data) :
    (∀ st : DynState, dynStep st a = st) ∧
    ∀ pre post : List SysfsAttr,
      sensors_read_dynamic_chip (some (pre ++ a :: post))
        = sensors_read_dynamic_chip (some (pre ++ post)) := by
  have hs : attrSlot a = none := by
    unfold attrSlot
    rw [if_neg h1, if_neg h2, if_pos h3]
  have hstep : ∀ st : DynState, dynStep st a = st := by
    intro st
    unfold dynStep
    rw [if_neg h1, hs]
  refine ⟨hstep, ?_⟩
  intro pre post
  have hfold : dynFold (pre ++ a :: post) = dynFold (pre ++ post) := by
    unfold dynFold
    rw [List.foldl_append, List.foldl_append, List.foldl_cons, hstep _]
  unfold sensors_read_dynamic_chip
  dsimp only
  rw [hfold]

/-- Witness for C8 at the attribute in16_input, decoded index 16. -/
theorem c8_oversized_index_dropped_witness :
    attrType ⟨"in16_input", "", true, false⟩ ≠ SENSORS_FEATURE_UNKNOWN ∧
    MAX_SENSORS_PER_TYPE ≤
      attrIndex (attrType ⟨"in16_input", "", true, false⟩) "in16_input".data ∧
    dynStep initDynState ⟨"in16_input", "", true, false⟩ = initDynState :=
  ⟨by decide, by decide,
   (c8_oversized_index_dropped ⟨"in16_input", "", true, false⟩
     (by decide) (by decide) (by decide)).1 initDynState⟩

/-- C10: the feature array built for any attribute list is the dense table
followed by exactly one all-zero element (fnum is the stored count plus one
and calloc zero-fills), and no dense element is itself the zero element. -/
theorem c10_zero_terminated_feature_array (attrs : List SysfsAttr) :
    (sensors_read_dynamic_chip (some attrs)).2 = denseOf attrs ++ [zeroFeature] ∧
    ∀ f ∈ denseOf attrs, f ≠ zeroFeature := by
  constructor
  · rw [read_dynamic_eq]
  · intro f hf
    rcases mem_denseOf.mp hf with ⟨s, _, hs⟩
    rcases tableOf_some hs with ⟨a, _, rfl⟩
    intro hc
    have hname := congrArg (fun g => g.data.name) hc
    simp only [attrFeature_name, zeroFeature] at hname
    exact Option.noConfusion hname

/-- C5: the slot characterization (the stored feature of a slot is the one
of the first-processed attribute decoding to it, later duplicates being
discarded) and the uniqueness of (category, index, subtype) across any final
dense table. -/
theorem c5_first_wins_and_unique_triples :
    (∀ (attrs : List SysfsAttr) (s : Nat),
      tableOf attrs s =
        ((attrs.filter fun a => attrSlot a == some s).head?).map attrFeature) ∧
    ∀ attrs : List SysfsAttr,
      (denseOf attrs).Pairwise fun f g => featureTriple f ≠ featureTriple g := by
  constructor
  · exact tableOf_char
  · intro attrs
    unfold denseOf
    apply pairwise_filterMap_aux
    refine (List.pairwise_lt_range TABLE_SIZE).imp ?_
    intro a b hab x hx y hy hc
    have hxa := tableOf_number hx
    have hyb := tableOf_number hy
    unfold featureTriple at hc
    rw [hxa, hyb] at hc
    simp only [Nat.add_sub_cancel, MAX_SENSORS_PER_TYPE,
      SENSORS_FEATURE_MAX_SUB_FEATURES, Prod.mk.injEq] at hc
    obtain ⟨hd1, hd2, hd3⟩ := hc
    omega

/-- C4: with no two attributes contending for one slot, any permutation of
the attribute list yields the same feature array; the dense table is in
strictly ascending number (= slot address) order; and each dense feature sits
at the sparse slot its number minus one addresses. -/
theorem c4_order_independent_dense_table
    (attrs attrs' : List SysfsAttr) (hp : attrs.Perm attrs') (hnc : NoCollide attrs) :
    (sensors_read_dynamic_chip (some attrs)).2
        = (sensors_read_dynamic_chip (some attrs')).2 ∧
    (denseOf attrs).Pairwise (fun f g => f.data.number < g.data.number) ∧
    ∀ f ∈ denseOf attrs, tableOf attrs (f.data.number - 1) = some f := by
  refine ⟨?_, denseOf_pairwise attrs, ?_⟩
  · rw [read_dynamic_eq, read_dynamic_eq, denseOf_perm hp hnc]
  · intro f hf
    rcases mem_denseOf.mp hf with ⟨s, _, hs⟩
    rw [tableOf_number hs]
    simpa using hs

/-- Witness for C4: two attributes of different slots, swapped. -/
theorem c4_order_independent_dense_table_witness :
    ([⟨"in0_input", "", true, false⟩, ⟨"fan1_input", "", true, false⟩]
        : List SysfsAttr).Perm
      [⟨"fan1_input", "", true, false⟩, ⟨"in0_input", "", true, false⟩] ∧
    NoCollide [⟨"in0_input", "", true, false⟩, ⟨"fan1_input", "", true, false⟩] ∧
    (sensors_read_dynamic_chip
        (some [⟨"in0_input", "", true, false⟩, ⟨"fan1_input", "", true, false⟩])).2
      = (sensors_read_dynamic_chip
        (some [⟨"fan1_input", "", true, false⟩, ⟨"in0_input", "", true, false⟩])).2 := by
  have hp : ([⟨"in0_input", "", true, false⟩, ⟨"fan1_input", "", true, false⟩]
      : List SysfsAttr).Perm
      [⟨"fan1_input", "", true, false⟩, ⟨"in0_input", "", true, false⟩] :=
    List.Perm.swap _ _ []
  have hnc : NoCollide [⟨"in0_input", "", true, false⟩, ⟨"fan1_input", "", true, false⟩] := by
    unfold NoCollide
    refine List.pairwise_cons.mpr ⟨?_, List.pairwise_cons.mpr ⟨by simp, List.Pairwise.nil⟩⟩
    intro b hb
    simp only [List.mem_singleton] at hb
    subst hb
    unfold slotDisjoint
    right
    decide
  exact ⟨hp, hnc, (c4_order_independent_dense_table _ _ hp hnc).1⟩

/-! ## Claim theorems: mapping and scaling -/

set_option maxRecDepth 10000

/-- Counterexample to C1 as stated: the attribute set consisting of in0_min
alone produces a feature whose mapping and compute_mapping (the would-be
number of the absent primary in0_input) reference no feature present in the
result. -/
theorem c1_counterexample :
    ∃ f ∈ (sensors_read_dynamic_chip (some [⟨"in0_min", "", true, false⟩])).2,
      f.data.mapping ≠ SENSORS_NO_MAPPING ∧
      f.data.compute_mapping ≠ SENSORS_NO_MAPPING ∧
      ∀ g ∈ (sensors_read_dynamic_chip (some [⟨"in0_min", "", true, false⟩])).2,
        (g.data.number : Int) ≠ f.data.mapping ∧
        (g.data.number : Int) ≠ f.data.compute_mapping := by decide

/-- C1 amended: whenever mapping or compute_mapping is not the no-mapping
sentinel, mapping equals the slot address of the (category, index) primary
slot plus one and compute_mapping is either the sentinel or equal to mapping;
whenever that primary slot is in fact occupied, both non-sentinel fields are
the number of a feature present in the same dense table. A sub-reading
stored without its primary keeps the arithmetic values and then references no
stored feature. -/
theorem c1_mapping_targets_primary_slot
    (attrs : List SysfsAttr) (f : ChipFeature)
    (hf : f ∈ denseOf attrs)
    (hm : f.data.mapping ≠ SENSORS_NO_MAPPING ∨
      f.data.compute_mapping ≠ SENSORS_NO_MAPPING) :
    f.data.mapping =
      (((f.data.number - 1) - (f.data.number - 1) % SENSORS_FEATURE_MAX_SUB_FEATURES
        + 1 : Nat) : Int) ∧
    (f.data.compute_mapping = SENSORS_NO_MAPPING ∨
      f.data.compute_mapping = f.data.mapping) ∧
    ∀ g, tableOf attrs
        ((f.data.number - 1) - (f.data.number - 1) % SENSORS_FEATURE_MAX_SUB_FEATURES)
        = some g →
      g ∈ denseOf attrs ∧ (g.data.number : Int) = f.data.mapping ∧
        (f.data.compute_mapping ≠ SENSORS_NO_MAPPING →
          (g.data.number : Int) = f.data.compute_mapping) := by
  rcases mem_denseOf.mp hf with ⟨s, hlt, hs⟩
  have hnum := tableOf_number hs
  rcases tableOf_some hs with ⟨a, ha, hfa⟩
  subst hfa
  have haddr := attrSlot_addr ha
  have hs1 : (attrFeature a).data.number - 1 = attrSlotAddr a := by omega
  have hps : ((attrFeature a).data.number - 1) - ((attrFeature a).data.number - 1)
      % SENSORS_FEATURE_MAX_SUB_FEATURES < TABLE_SIZE := by omega
  rcases attrFeature_mapping_cases a with ⟨hm1, hc1⟩ | ⟨hmap, hcm⟩ | ⟨hmap, hcm⟩
  · rcases hm with h | h
    · exact absurd hm1 h
    · exact absurd hc1 h
  · refine ⟨by rw [hmap, hs1], Or.inl hcm, ?_⟩
    intro g hg
    refine ⟨mem_denseOf.mpr ⟨_, hps, hg⟩, ?_, ?_⟩
    · rw [tableOf_number hg, hmap, hs1]
    · intro hc
      exact absurd hcm hc
  · refine ⟨by rw [hmap, hs1], Or.inr hcm, ?_⟩
    intro g hg
    refine ⟨mem_denseOf.mpr ⟨_, hps, hg⟩, ?_, ?_⟩
    · rw [tableOf_number hg, hmap, hs1]
    · intro _
      rw [hcm, tableOf_number hg, hmap, hs1]

/-- Witness for the amended C1: in0_min together with its primary. -/
theorem c1_mapping_targets_primary_slot_witness :
    attrFeature ⟨"in0_min", "", true, false⟩ ∈
      denseOf [⟨"in0_input", "", true, false⟩, ⟨"in0_min", "", true, false⟩] ∧
    (attrFeature ⟨"in0_min", "", true, false⟩).data.mapping ≠ SENSORS_NO_MAPPING ∧
    (attrFeature ⟨"in0_min", "", true, false⟩).data.mapping =
      ((((attrFeature ⟨"in0_min", "", true, false⟩).data.number - 1)
        - ((attrFeature ⟨"in0_min", "", true, false⟩).data.number - 1)
          % SENSORS_FEATURE_MAX_SUB_FEATURES + 1 : Nat) : Int) ∧
    ((attrFeature ⟨"in0_min", "", true, false⟩).data.compute_mapping
        = SENSORS_NO_MAPPING ∨
      (attrFeature ⟨"in0_min", "", true, false⟩).data.compute_mapping
        = (attrFeature ⟨"in0_min", "", true, false⟩).data.mapping) := by
  have h := c1_mapping_targets_primary_slot
    [⟨"in0_input", "", true, false⟩, ⟨"in0_min", "", true, false⟩]
    (attrFeature ⟨"in0_min", "", true, false⟩) (by decide) (Or.inl (by decide))
  exact ⟨by decide, by decide, h.1, h.2.1⟩

/-- Counterexample to C2 as stated: in0_alarm is accepted, classifies in the
Voltage category, yet its scaling is 0 and not the category's 3 — the 0xFF10
mask of get_type_scaling excludes alarm-flagged subtypes. -/
theorem c2_counterexample :
    sensors_feature_get_type "in0_alarm" ≠ SENSORS_FEATURE_UNKNOWN ∧
    sensors_feature_get_type "in0_alarm" &&& 0xFF00 = SENSORS_FEATURE_IN ∧
    get_type_scaling (sensors_feature_get_type "in0_alarm") ≠ 3 := by decide

/-- C2 amended: for every accepted name the computed scaling is determined by
the category together with the non-computed (alarm) flag: Voltage and
Temperature subtypes without the 0x10 flag scale by 3, every 0x10-flagged
subtype by 0, Fan by 0, Vid by 3, Vrm by 1. -/
theorem c2_scaling_from_category_and_alarm_flag (name : String)
    (h : sensors_feature_get_type name ≠ SENSORS_FEATURE_UNKNOWN) :
    get_type_scaling (sensors_feature_get_type name)
      = scalingOfCategory (sensors_feature_get_type name) := by
  have hmem : sensors_feature_get_type name ∈ validTypes := by
    rcases sensors_feature_get_type_mem name with hu | hm
    · exact absurd hu h
    · exact hm
  have hall : ∀ t ∈ validTypes, get_type_scaling t = scalingOfCategory t := by decide
  exact hall _ hmem

/-- Witness for the amended C2 at in0_input. -/
theorem c2_scaling_from_category_and_alarm_flag_witness :
    sensors_feature_get_type "in0" ≠ SENSORS_FEATURE_UNKNOWN ∧
    get_type_scaling (sensors_feature_get_type "in0")
      = scalingOfCategory (sensors_feature_get_type "in0") :=
  ⟨by decide, c2_scaling_from_category_and_alarm_flag "in0" (by decide)⟩
